import Mathlib

/-!
Shallow embedding of the LekkageAlarm integration
(custom_components/lekkagealarm): the trigger evaluator inside
`_state_change_listener`, the retrying collector client
`_async_post_to_collector`, the ContactRecord update logic of
`_async_handle_trigger_event` / `_async_handle_heartbeat`, the
`async_start` / `async_stop` lifecycle, `send_current_state`, the pairing
flow `_async_pair` / `async_step_settings`, and the config-flow
normalization `_normalize_monitored_states` / `async_step_device` /
`async_step_import`.

Machine values (entity states, attributes) are modelled as strings, worlds
of HTTP responses as oracles `Nat → outcome` indexed by attempt number,
and `datetime.utcnow()` results as explicit parameters.
-/

namespace LekkageAlarm

/-- Python truthiness of an optional string (None and "" are falsy),
as used by `if self.attribute:` and `if not token:` in the source. -/
def pyTruthy : Option String → Bool
  | none => false
  | some s => !(s == "")

/-- Python's `str.lower()` modelled character-wise. -/
def pyLower (s : String) : String := String.mk (s.data.map Char.toLower)

/-- A host-platform entity state: primary `state` value plus an
attribute mapping (`attributes.get` is association-list lookup). -/
structure HAState where
  state : String
  attributes : List (String × String)
deriving DecidableEq

/-- Read the watched value from a state object: the configured attribute
when one is set (Python-truthy), otherwise the primary state value.
Embeds the `if self.attribute: ... .attributes.get(...) else ... .state`
branch that recurs throughout `__init__.py`. -/
def monitorGetVal (attr : Option String) (hs : HAState) : Option String :=
  if pyTruthy attr then hs.attributes.lookup (attr.getD "") else some hs.state

/-- The body of `_state_change_listener` (lines 159-188): returns the
normalized value an event is fired with, or `none` when no event fires. -/
def stateChangeListener (attr : Option String) (triggerStates : List String)
    (oldState newState : Option HAState) : Option String :=
  match newState with
  | none => none
  | some ns =>
    let newVal : Option String := monitorGetVal attr ns
    let oldVal : Option String :=
      match oldState with
      | some os => monitorGetVal attr os
      | none => none
    match newVal with
    | none => none
    | some nv =>
      let strNew := pyLower nv
      let strOld := oldVal.map pyLower
      if strOld ≠ some strNew ∧ (triggerStates = [] ∨ strNew ∈ triggerStates)
      then some strNew
      else none

/-- The spec's trigger condition, 4.1: fire iff the normalized new value
differs from the normalized old value (absent old is a sentinel unequal to
every string) and the trigger set is empty or contains the new value. -/
def shouldFireSpec (oldVal newVal : Option String) (triggers : List String) : Prop :=
  ∃ n, newVal = some n ∧ oldVal.map pyLower ≠ some (pyLower n) ∧
    (triggers = [] ∨ pyLower n ∈ triggers)

/-- The listener on a present new state whose watched value is present
reduces to the guarded fire decision. -/
lemma stateChangeListener_eq_ite (attr : Option String) (trig : List String)
    (oldS : Option HAState) (ns : HAState) (nv : String)
    (hn : monitorGetVal attr ns = some nv) :
    stateChangeListener attr trig oldS (some ns) =
      if (oldS.bind (monitorGetVal attr)).map pyLower ≠ some (pyLower nv) ∧
          (trig = [] ∨ pyLower nv ∈ trig)
      then some (pyLower nv) else none := by
  cases oldS <;> simp [stateChangeListener, hn]

/-- C1: the listener fires iff the spec's `shouldFire` condition holds of
the extracted old/new values. -/
theorem C1_state_change_fires_iff (attr : Option String) (trig : List String)
    (oldS newS : Option HAState) :
    (stateChangeListener attr trig oldS newS).isSome = true ↔
      shouldFireSpec (oldS.bind (monitorGetVal attr))
        (newS.bind (monitorGetVal attr)) trig := by
  cases newS with
  | none => simp [stateChangeListener, shouldFireSpec]
  | some ns =>
    cases hn : monitorGetVal attr ns with
    | none =>
      cases oldS <;> simp [stateChangeListener, shouldFireSpec, hn]
    | some nv =>
      rw [stateChangeListener_eq_ite attr trig oldS ns nv hn]
      by_cases hcond :
          (oldS.bind (monitorGetVal attr)).map pyLower ≠ some (pyLower nv) ∧
            (trig = [] ∨ pyLower nv ∈ trig)
      · rw [if_pos hcond]
        simp only [Option.isSome_some, true_iff]
        exact ⟨nv, by simp [hn], hcond.1, hcond.2⟩
      · rw [if_neg hcond]
        simp only [Option.isSome_none, Bool.false_eq_true, false_iff]
        rintro ⟨n, hsome, hne2, hc2⟩
        rw [show (some ns).bind (monitorGetVal attr) = monitorGetVal attr ns
          from rfl, hn] at hsome
        cases hsome
        exact hcond ⟨hne2, hc2⟩

/-- What the collector endpoint does on a given attempt: an HTTP response
with a status and body, a request timeout, or a client network error. -/
inductive AttemptOutcome
  | response (status : Nat) (body : String)
  | timeoutErr
  | networkErr (msg : String)
deriving DecidableEq

/-- Whether one attempt of the `_async_post_to_collector` loop succeeds:
only a response with status 200; timeouts and network errors are caught
and fall through to the retry, like any non-200 status. -/
def attemptOk : AttemptOutcome → Bool
  | .response status _ => status == 200
  | .timeoutErr => false
  | .networkErr _ => false

/-- Observable behaviour of one `_async_post_to_collector` call: how many
POST attempts were made, the argument of each `asyncio.sleep` performed in
order, and the returned boolean. -/
structure PostTrace where
  attemptsMade : Nat
  sleeps : List Nat
  success : Bool
deriving DecidableEq

/-- The `for attempt in range(1, 4)` loop of `_async_post_to_collector`
(lines 290-323): on a 200 response return `True` at once; otherwise
`await asyncio.sleep(attempt)` and continue; after the loop return
`False`. -/
def postFrom (env : Nat → AttemptOutcome) (fuel attempt made : Nat)
    (sleeps : List Nat) : PostTrace :=
  match fuel with
  | 0 => { attemptsMade := made, sleeps := sleeps, success := false }
  | Nat.succ f =>
    if attemptOk (env attempt) then
      { attemptsMade := made + 1, sleeps := sleeps, success := true }
    else
      postFrom env f (attempt + 1) (made + 1) (sleeps ++ [attempt])

/-- `_async_post_to_collector` run against an oracle giving the outcome of
each attempt number. -/
def postToCollector (env : Nat → AttemptOutcome) : PostTrace :=
  postFrom env 3 1 0 []

/-- The same loop abstracted over only the per-attempt success bit. -/
def postFromAbs (ok : Nat → Bool) (fuel attempt made : Nat)
    (sleeps : List Nat) : PostTrace :=
  match fuel with
  | 0 => { attemptsMade := made, sleeps := sleeps, success := false }
  | Nat.succ f =>
    if ok attempt then
      { attemptsMade := made + 1, sleeps := sleeps, success := true }
    else
      postFromAbs ok f (attempt + 1) (made + 1) (sleeps ++ [attempt])

/-- The abstracted loop started like `postToCollector`. -/
def postAbs (ok : Nat → Bool) : PostTrace :=
  postFromAbs ok 3 1 0 []

lemma postFrom_eq_abs (env : Nat → AttemptOutcome) (fuel attempt made : Nat)
    (sleeps : List Nat) :
    postFrom env fuel attempt made sleeps =
      postFromAbs (fun i => attemptOk (env i)) fuel attempt made sleeps := by
  induction fuel generalizing attempt made sleeps with
  | zero => rfl
  | succ f ih =>
    simp only [postFrom, postFromAbs]
    by_cases h : attemptOk (env attempt)
    · simp [h]
    · simp [h, ih]

/-- C2 counterexample: against a target that always answers status 500,
the client makes 3 attempts but its sleeps are 1s, 2s and 3s — the loop
also sleeps after the third failed attempt, so the delays are not just the
1s and 2s between attempts. -/
theorem C2_counterexample :
    (postToCollector (fun _ => AttemptOutcome.response 500 "")).attemptsMade = 3 ∧
      (postToCollector (fun _ => AttemptOutcome.response 500 "")).sleeps ≠ [1, 2] := by
  constructor
  · rfl
  · decide

/-- C2 (amended): when all three attempts fail, the client makes exactly
3 POST attempts, sleeping `attempt` seconds after each failed attempt —
1s, 2s, then 3s after the final failure — and returns failure. -/
theorem C2_retry_exhaustion (env : Nat → AttemptOutcome)
    (h1 : attemptOk (env 1) = false) (h2 : attemptOk (env 2) = false)
    (h3 : attemptOk (env 3) = false) :
    postToCollector env =
      { attemptsMade := 3, sleeps := [1, 2, 3], success := false } := by
  simp [postToCollector, postFrom, h1, h2, h3]

/-- C2 witness: the amended claim at the all-500 target. -/
theorem C2_retry_exhaustion_witness :
    postToCollector (fun _ => AttemptOutcome.response 500 "") =
      { attemptsMade := 3, sleeps := [1, 2, 3], success := false } :=
  C2_retry_exhaustion (fun _ => AttemptOutcome.response 500 "") rfl rfl rfl

/-- C3: the client returns success iff one of the (at most 3) attempts
gets a status-200 response, and its whole behaviour factors through the
per-attempt success bit, so timeouts and network errors are handled
exactly like non-200 responses; the result is always the boolean in the
trace, never a propagated error. -/
theorem C3_success_iff_some_200 (env : Nat → AttemptOutcome) :
    ((postToCollector env).success = true ↔
      (attemptOk (env 1) = true ∨ attemptOk (env 2) = true ∨
        attemptOk (env 3) = true)) ∧
    postToCollector env = postAbs (fun i => attemptOk (env i)) := by
  constructor
  · cases h1 : attemptOk (env 1) <;> cases h2 : attemptOk (env 2) <;>
      cases h3 : attemptOk (env 3) <;>
        simp [postToCollector, postFrom, h1, h2, h3]
  · exact postFrom_eq_abs env 3 1 0 []

/-- A UTC wall-clock instant as `datetime.utcnow()` exposes it to
`strftime`. -/
structure DateTime where
  year : Nat
  month : Nat
  day : Nat
  hour : Nat
  minute : Nat
  second : Nat
deriving DecidableEq

/-- The decimal digit character for `n % 10`. -/
def digitChar10 (n : Nat) : Char := Char.ofNat (48 + n % 10)

/-- A zero-padded two-digit field, as `%m`, `%d`, `%H`, `%M`, `%S`
render in-range components. -/
def digits2 (n : Nat) : List Char := [digitChar10 (n / 10), digitChar10 n]

/-- A zero-padded four-digit field, as `%Y` renders in-range years. -/
def digits4 (n : Nat) : List Char :=
  [digitChar10 (n / 1000), digitChar10 (n / 100), digitChar10 (n / 10),
    digitChar10 n]

/-- `datetime.utcnow().strftime("%Y-%m-%dT%H:%M:%SZ")` on the given
instant. -/
def strftimeISO (t : DateTime) : String :=
  String.mk (digits4 t.year ++ '-' :: digits2 t.month ++ '-' :: digits2 t.day ++
    'T' :: digits2 t.hour ++ ':' :: digits2 t.minute ++ ':' :: digits2 t.second ++
    ['Z'])

/-- The spec's timestamp shape: exactly `YYYY-MM-DDTHH:MM:SSZ` with
decimal digits in the component positions. -/
def isIsoZ (s : String) : Bool :=
  match s.data with
  | [y1, y2, y3, y4, s1, mo1, mo2, s2, d1, d2, s3, h1, h2, s4, mi1, mi2,
      s5, se1, se2, s6] =>
    y1.isDigit && y2.isDigit && y3.isDigit && y4.isDigit && s1 == '-' &&
    mo1.isDigit && mo2.isDigit && s2 == '-' && d1.isDigit && d2.isDigit &&
    s3 == 'T' && h1.isDigit && h2.isDigit && s4 == ':' && mi1.isDigit &&
    mi2.isDigit && s5 == ':' && se1.isDigit && se2.isDigit && s6 == 'Z'
  | _ => false

lemma digitChar10_isDigit (n : Nat) : (digitChar10 n).isDigit = true := by
  have h : n % 10 < 10 := Nat.mod_lt _ (by decide)
  unfold digitChar10
  interval_cases hk : (n % 10) <;> decide

lemma strftimeISO_isIsoZ (t : DateTime) : isIsoZ (strftimeISO t) = true := by
  simp only [strftimeISO, digits4, digits2, List.cons_append, List.nil_append,
    isIsoZ]
  simp [digitChar10_isDigit]

/-- The mutable per-monitor ContactRecord fields (timestamps as abstract
ticks). -/
structure ContactRecord where
  last_contact_time : Option Nat
  last_event_time : Option Nat
  last_event_value : Option String
  last_heartbeat_time : Option Nat
deriving DecidableEq

/-- The event payload dict built by `_async_handle_trigger_event`
(lines 242-249), in insertion order. -/
def eventPayload (token entityId : String) (attr : Option String)
    (newValue ts : String) : List (String × String) :=
  [("token", token), ("entity_id", entityId),
    ("attribute", if pyTruthy attr then attr.getD "" else "state"),
    ("new_state", newValue), ("timestamp", ts), ("type", "state_change")]

/-- The heartbeat payload dict built by `_async_handle_heartbeat`
(lines 264-277): the four base fields, then `current_state` appended iff
the entity exists and its watched value is present. -/
def heartbeatPayload (token entityId ts : String) (attr : Option String)
    (cur : Option HAState) : List (String × String) :=
  let base := [("token", token), ("entity_id", entityId), ("timestamp", ts),
    ("type", "heartbeat")]
  match cur with
  | none => base
  | some cs =>
    match monitorGetVal attr cs with
    | none => base
    | some v => base ++ [("current_state", v)]

/-- Observable behaviour of one send handler: the resulting ContactRecord,
the payloads POSTed, and the contact timestamps republished through the
dispatcher. -/
structure SendOutcome where
  record : ContactRecord
  posts : List (List (String × String))
  dispatches : List Nat
deriving DecidableEq

/-- `_async_handle_trigger_event` (lines 240-260): build the payload, post
it with retries; only on success set `last_event_time`,
`last_event_value` and `last_contact_time` and dispatch the new contact
time once. -/
def handleTriggerEvent (env : Nat → AttemptOutcome) (token entityId : String)
    (attr : Option String) (rec : ContactRecord) (newValue : String)
    (ts : DateTime) (now : Nat) : SendOutcome :=
  let payload := eventPayload token entityId attr newValue (strftimeISO ts)
  if (postToCollector env).success then
    { record := { rec with
        last_event_time := some now
        last_event_value := some newValue
        last_contact_time := some now }
      posts := [payload]
      dispatches := [now] }
  else
    { record := rec, posts := [payload], dispatches := [] }

/-- `_async_handle_heartbeat` (lines 262-288): build the payload (with the
optional `current_state`), post it; only on success set
`last_heartbeat_time` and `last_contact_time` and dispatch the new contact
time once. -/
def handleHeartbeat (env : Nat → AttemptOutcome) (token entityId : String)
    (attr : Option String) (cur : Option HAState) (rec : ContactRecord)
    (ts : DateTime) (now : Nat) : SendOutcome :=
  let payload := heartbeatPayload token entityId (strftimeISO ts) attr cur
  if (postToCollector env).success then
    { record := { rec with
        last_heartbeat_time := some now
        last_contact_time := some now }
      posts := [payload]
      dispatches := [now] }
  else
    { record := rec, posts := [payload], dispatches := [] }

/-- C4: a failed send leaves every ContactRecord field unchanged and
republishes nothing; a successful event send updates the event time/value
and contact time (heartbeat time untouched), a successful heartbeat send
updates the heartbeat and contact time (event fields untouched), and each
successful send republishes the updated contact timestamp exactly once. -/
theorem C4_contact_record_updates (env : Nat → AttemptOutcome)
    (token entityId : String) (attr : Option String) (cur : Option HAState)
    (rec : ContactRecord) (v : String) (ts : DateTime) (now : Nat) :
    ((postToCollector env).success = false →
      (handleTriggerEvent env token entityId attr rec v ts now).record = rec ∧
      (handleTriggerEvent env token entityId attr rec v ts now).dispatches = [] ∧
      (handleHeartbeat env token entityId attr cur rec ts now).record = rec ∧
      (handleHeartbeat env token entityId attr cur rec ts now).dispatches = []) ∧
    ((postToCollector env).success = true →
      (handleTriggerEvent env token entityId attr rec v ts now).record.last_event_time = some now ∧
      (handleTriggerEvent env token entityId attr rec v ts now).record.last_event_value = some v ∧
      (handleTriggerEvent env token entityId attr rec v ts now).record.last_contact_time = some now ∧
      (handleTriggerEvent env token entityId attr rec v ts now).record.last_heartbeat_time = rec.last_heartbeat_time ∧
      (handleTriggerEvent env token entityId attr rec v ts now).dispatches = [now] ∧
      (handleHeartbeat env token entityId attr cur rec ts now).record.last_heartbeat_time = some now ∧
      (handleHeartbeat env token entityId attr cur rec ts now).record.last_contact_time = some now ∧
      (handleHeartbeat env token entityId attr cur rec ts now).record.last_event_time = rec.last_event_time ∧
      (handleHeartbeat env token entityId attr cur rec ts now).record.last_event_value = rec.last_event_value ∧
      (handleHeartbeat env token entityId attr cur rec ts now).dispatches = [now]) := by
  constructor
  · intro h
    simp [handleTriggerEvent, handleHeartbeat, h]
  · intro h
    simp [handleTriggerEvent, handleHeartbeat, h]

/-- C4 witness: the failure branch at an all-500 target and the success
branch at a first-attempt-200 target, on a concrete record. -/
theorem C4_contact_record_updates_witness :
    ((handleTriggerEvent (fun _ => AttemptOutcome.response 500 "") "tok"
        "sensor.leak" none ⟨none, none, none, none⟩ "wet" ⟨2026, 1, 2, 3, 4, 5⟩
        7).record = ⟨none, none, none, none⟩) ∧
    ((handleTriggerEvent (fun _ => AttemptOutcome.response 200 "ok") "tok"
        "sensor.leak" none ⟨none, none, none, none⟩ "wet" ⟨2026, 1, 2, 3, 4, 5⟩
        7).record.last_event_value = some "wet") := by
  constructor
  · exact ((C4_contact_record_updates (fun _ => AttemptOutcome.response 500 "")
      "tok" "sensor.leak" none none ⟨none, none, none, none⟩ "wet"
      ⟨2026, 1, 2, 3, 4, 5⟩ 7).1 rfl).1
  · exact (((C4_contact_record_updates (fun _ => AttemptOutcome.response 200 "ok")
      "tok" "sensor.leak" none none ⟨none, none, none, none⟩ "wet"
      ⟨2026, 1, 2, 3, 4, 5⟩ 7).2 rfl).2).1

/-- C8: an event payload has exactly the keys token, entity_id, attribute,
new_state, timestamp, type in order, with type "state_change", new_state
the sent value, attribute the configured (non-empty) name or the literal
"state" when none is configured; a heartbeat payload has exactly token,
entity_id, timestamp, type (plus current_state iff the watched value is
present, holding that un-normalized value) with type "heartbeat"; and
every generated timestamp has the `YYYY-MM-DDTHH:MM:SSZ` shape. -/
theorem C8_payload_fields (token entityId : String) (attr : Option String)
    (v : String) (ts : DateTime) (cur : Option HAState) :
    ((eventPayload token entityId attr v (strftimeISO ts)).map Prod.fst =
      ["token", "entity_id", "attribute", "new_state", "timestamp", "type"]) ∧
    ((eventPayload token entityId attr v (strftimeISO ts)).lookup "type" =
      some "state_change") ∧
    ((eventPayload token entityId attr v (strftimeISO ts)).lookup "new_state" =
      some v) ∧
    ((eventPayload token entityId attr v (strftimeISO ts)).lookup "timestamp" =
      some (strftimeISO ts)) ∧
    (attr = none →
      (eventPayload token entityId attr v (strftimeISO ts)).lookup "attribute" =
        some "state") ∧
    (∀ a, attr = some a → a ≠ "" →
      (eventPayload token entityId attr v (strftimeISO ts)).lookup "attribute" =
        some a) ∧
    (cur.bind (monitorGetVal attr) = none →
      (heartbeatPayload token entityId (strftimeISO ts) attr cur).map Prod.fst =
        ["token", "entity_id", "timestamp", "type"]) ∧
    (∀ w, cur.bind (monitorGetVal attr) = some w →
      (heartbeatPayload token entityId (strftimeISO ts) attr cur).map Prod.fst =
        ["token", "entity_id", "timestamp", "type", "current_state"] ∧
      (heartbeatPayload token entityId (strftimeISO ts) attr cur).lookup
        "current_state" = some w) ∧
    ((heartbeatPayload token entityId (strftimeISO ts) attr cur).lookup "type" =
      some "heartbeat") ∧
    (isIsoZ (strftimeISO ts) = true) := by
  refine ⟨rfl, ?_, ?_, ?_, ?_, ?_, ?_, ?_, ?_, strftimeISO_isIsoZ ts⟩
  · simp [eventPayload, List.lookup]
  · simp [eventPayload, List.lookup]
  · simp [eventPayload, List.lookup]
  · intro h
    subst h
    simp [eventPayload, List.lookup, pyTruthy]
  · intro a ha hne
    subst ha
    simp [eventPayload, List.lookup, pyTruthy, hne]
  · intro h
    cases cur with
    | none => rfl
    | some cs =>
      rw [show (some cs).bind (monitorGetVal attr) = monitorGetVal attr cs
        from rfl] at h
      simp [heartbeatPayload, h]
  · intro w hw
    cases cur with
    | none => simp at hw
    | some cs =>
      rw [show (some cs).bind (monitorGetVal attr) = monitorGetVal attr cs
        from rfl] at hw
      constructor
      · simp [heartbeatPayload, hw]
      · simp [heartbeatPayload, hw, List.lookup]
  · cases cur with
    | none => rfl
    | some cs =>
      cases hv : monitorGetVal attr cs <;>
        simp [heartbeatPayload, hv, List.lookup]

/-- C8 witness: the attribute and current_state clauses at concrete
inputs. -/
theorem C8_payload_fields_witness :
    ((eventPayload "tok" "sensor.leak" (some "moisture") "wet"
        (strftimeISO ⟨2026, 1, 2, 3, 4, 5⟩)).lookup "attribute" =
      some "moisture") ∧
    ((heartbeatPayload "tok" "sensor.leak" (strftimeISO ⟨2026, 1, 2, 3, 4, 5⟩)
        none (some ⟨"Dry", []⟩)).lookup "current_state" = some "Dry") := by
  constructor
  · exact (C8_payload_fields "tok" "sensor.leak" (some "moisture") "wet"
      ⟨2026, 1, 2, 3, 4, 5⟩ none).2.2.2.2.2.1 "moisture" rfl (by decide)
  · exact ((C8_payload_fields "tok" "sensor.leak" none "wet"
      ⟨2026, 1, 2, 3, 4, 5⟩ (some ⟨"Dry", []⟩)).2.2.2.2.2.2.2.1 "Dry" rfl).2

/-- `send_current_state` (lines 325-345): look up the live entity state;
if the entity or its watched value is absent, do nothing; otherwise force
an event send with the lower-cased value via
`_async_handle_trigger_event`. -/
def sendCurrentState (env : Nat → AttemptOutcome) (token entityId : String)
    (attr : Option String) (cur : Option HAState) (rec : ContactRecord)
    (ts : DateTime) (now : Nat) : SendOutcome :=
  match cur with
  | none => { record := rec, posts := [], dispatches := [] }
  | some st =>
    match monitorGetVal attr st with
    | none => { record := rec, posts := [], dispatches := [] }
    | some v => handleTriggerEvent env token entityId attr rec (pyLower v) ts now

/-- C9: when the entity or the configured attribute is absent at call
time, `send_current_state` posts nothing and changes nothing; when the
value is present it delegates to the event handler with the lower-cased
live value and posts the event payload even in situations where the
trigger evaluator would not fire (value unchanged or outside the trigger
set). -/
theorem C9_send_current_state (env : Nat → AttemptOutcome)
    (token entityId : String) (attr : Option String) (cur : Option HAState)
    (rec : ContactRecord) (ts : DateTime) (now : Nat) :
    (cur = none →
      sendCurrentState env token entityId attr cur rec ts now =
        { record := rec, posts := [], dispatches := [] }) ∧
    (∀ st, cur = some st → monitorGetVal attr st = none →
      sendCurrentState env token entityId attr cur rec ts now =
        { record := rec, posts := [], dispatches := [] }) ∧
    (∀ st v, cur = some st → monitorGetVal attr st = some v →
      sendCurrentState env token entityId attr cur rec ts now =
        handleTriggerEvent env token entityId attr rec (pyLower v) ts now ∧
      ∀ trig : List String, ¬ shouldFireSpec (some v) (some v) trig →
        (sendCurrentState env token entityId attr cur rec ts now).posts =
          [eventPayload token entityId attr (pyLower v) (strftimeISO ts)]) := by
  refine ⟨?_, ?_, ?_⟩
  · intro h
    subst h
    rfl
  · intro st hst hv
    subst hst
    simp [sendCurrentState, hv]
  · intro st v hst hv
    subst hst
    constructor
    · simp [sendCurrentState, hv]
    · intro trig _
      simp only [sendCurrentState, hv]
      by_cases hs : (postToCollector env).success <;>
        simp [handleTriggerEvent, hs]

/-- C9 witness: absent entity is a no-op; a present value is force-sent
even though the trigger evaluator would not fire for it. -/
theorem C9_send_current_state_witness :
    (sendCurrentState (fun _ => AttemptOutcome.response 200 "") "tok"
      "sensor.leak" none none ⟨none, none, none, none⟩ ⟨2026, 1, 2, 3, 4, 5⟩ 7 =
      { record := ⟨none, none, none, none⟩, posts := [], dispatches := [] }) ∧
    ((sendCurrentState (fun _ => AttemptOutcome.response 200 "") "tok"
      "sensor.leak" none (some ⟨"Dry", []⟩) ⟨none, none, none, none⟩
      ⟨2026, 1, 2, 3, 4, 5⟩ 7).posts =
      [eventPayload "tok" "sensor.leak" none "dry"
        (strftimeISO ⟨2026, 1, 2, 3, 4, 5⟩)]) := by
  constructor
  · exact (C9_send_current_state (fun _ => AttemptOutcome.response 200 "") "tok"
      "sensor.leak" none none ⟨none, none, none, none⟩
      ⟨2026, 1, 2, 3, 4, 5⟩ 7).1 rfl
  · have hnofire : ¬ shouldFireSpec (some "Dry") (some "Dry") ["wet"] := by
      rintro ⟨n, hn, hne, -⟩
      cases hn
      exact hne rfl
    have h := ((C9_send_current_state (fun _ => AttemptOutcome.response 200 "")
      "tok" "sensor.leak" none (some ⟨"Dry", []⟩) ⟨none, none, none, none⟩
      ⟨2026, 1, 2, 3, 4, 5⟩ 7).2.2 ⟨"Dry", []⟩ "Dry" rfl rfl).2 ["wet"] hnofire
    rw [show pyLower "Dry" = "dry" from by decide] at h
    exact h

/-- The two subscription handles held by a monitor (`_unsub_state`,
`_unsub_heartbeat`): `true` means a handle is present. -/
structure MonitorSubs where
  unsubState : Bool
  unsubHeartbeat : Bool
deriving DecidableEq

/-- Result of one `async_stop` call: the handle fields afterwards and how
many unsubscribe callbacks were invoked. -/
structure StopResult where
  subs : MonitorSubs
  unsubCalls : Nat
deriving DecidableEq

/-- `async_stop` (lines 230-238): call and clear each handle that is
present. -/
def asyncStop (s : MonitorSubs) : StopResult :=
  let step1 : MonitorSubs × Nat :=
    if s.unsubState then ({ s with unsubState := false }, 1) else (s, 0)
  let step2 : MonitorSubs × Nat :=
    if step1.1.unsubHeartbeat then ({ step1.1 with unsubHeartbeat := false }, 1)
    else (step1.1, 0)
  { subs := step2.1, unsubCalls := step1.2 + step2.2 }

/-- C5: `stop()` is idempotent — after one call both handles are absent,
and a second call changes nothing and performs no further unsubscription. -/
theorem C5_stop_idempotent (s : MonitorSubs) :
    asyncStop (asyncStop s).subs =
      { subs := (asyncStop s).subs, unsubCalls := 0 } ∧
    (asyncStop s).subs.unsubState = false ∧
    (asyncStop s).subs.unsubHeartbeat = false := by
  rcases s with ⟨a, b⟩
  cases a <;> cases b <;> exact ⟨rfl, rfl, rfl⟩

/-- The per-monitor configuration (`LekkageAlarmMonitor.__init__`). -/
structure MonitorConfig where
  token : String
  entityId : String
  attr : Option String
  triggerStates : List String
  heartbeatInterval : Nat
deriving DecidableEq

/-- Observable effects of `async_start`: the registered subscriptions, the
shutdown-hook registration, and the values of the initial event sends
issued. -/
structure StartResult where
  subs : MonitorSubs
  stopHookRegistered : Bool
  initialEvents : List String
deriving DecidableEq

/-- `async_start` (lines 156-228): always register the state-change
listener; register the heartbeat timer iff the interval is positive; then
read the current entity state and, when its watched value is present and
matches the trigger condition, schedule one initial event send with the
normalized value; finally register the shutdown hook. -/
def asyncStart (cfg : MonitorConfig) (cur : Option HAState) : StartResult :=
  let subs : MonitorSubs :=
    { unsubState := true
      unsubHeartbeat := decide (0 < cfg.heartbeatInterval) }
  let initial : List String :=
    match cur with
    | none => []
    | some cs =>
      match monitorGetVal cfg.attr cs with
      | none => []
      | some v =>
        let vs := pyLower v
        if cfg.triggerStates = [] ∨ vs ∈ cfg.triggerStates then [vs] else []
  { subs := subs, stopHookRegistered := true, initialEvents := initial }

/-- C6: `start()` always registers the state-change subscription,
registers the heartbeat timer iff the configured interval is positive,
and issues exactly one initial event send with the normalized current
value iff that value is present and matches the trigger condition (no
initial event otherwise). -/
theorem C6_start_behaviour (cfg : MonitorConfig) (cur : Option HAState) :
    (asyncStart cfg cur).subs.unsubState = true ∧
    ((asyncStart cfg cur).subs.unsubHeartbeat = true ↔
      0 < cfg.heartbeatInterval) ∧
    (cur.bind (monitorGetVal cfg.attr) = none →
      (asyncStart cfg cur).initialEvents = []) ∧
    (∀ v, cur.bind (monitorGetVal cfg.attr) = some v →
      ((cfg.triggerStates = [] ∨ pyLower v ∈ cfg.triggerStates) →
        (asyncStart cfg cur).initialEvents = [pyLower v]) ∧
      (¬ (cfg.triggerStates = [] ∨ pyLower v ∈ cfg.triggerStates) →
        (asyncStart cfg cur).initialEvents = [])) := by
  refine ⟨rfl, by simp [asyncStart], ?_, ?_⟩
  · intro h
    cases cur with
    | none => rfl
    | some cs =>
      rw [show (some cs).bind (monitorGetVal cfg.attr) =
        monitorGetVal cfg.attr cs from rfl] at h
      simp [asyncStart, h]
  · intro v hv
    cases cur with
    | none => simp at hv
    | some cs =>
      rw [show (some cs).bind (monitorGetVal cfg.attr) =
        monitorGetVal cfg.attr cs from rfl] at hv
      constructor
      · intro hc
        simp [asyncStart, hv, hc]
      · intro hc
        simp only [asyncStart, hv]
        rw [if_neg hc]

/-- C6 witness: a monitor with heartbeat interval 60 started while the
entity already reads a trigger value sends exactly one initial event. -/
theorem C6_start_behaviour_witness :
    ((asyncStart ⟨"tok", "sensor.leak", none, ["wet"], 60⟩
        (some ⟨"Wet", []⟩)).subs.unsubHeartbeat = true ↔ (0 : Nat) < 60) ∧
    (asyncStart ⟨"tok", "sensor.leak", none, ["wet"], 60⟩
        (some ⟨"Wet", []⟩)).initialEvents = ["wet"] := by
  constructor
  · exact (C6_start_behaviour ⟨"tok", "sensor.leak", none, ["wet"], 60⟩
      (some ⟨"Wet", []⟩)).2.1
  · have h := ((C6_start_behaviour ⟨"tok", "sensor.leak", none, ["wet"], 60⟩
      (some ⟨"Wet", []⟩)).2.2.2 "Wet" rfl).1 (by right; decide)
    rw [show pyLower "Wet" = "wet" from by decide] at h
    exact h

/-- A pairing-endpoint response: HTTP status and the `token` field of the
parsed JSON body (`none` when the body lacks the field). -/
structure PairResponse where
  status : Nat
  tokenField : Option String
deriving DecidableEq

/-- `_async_pair` (config_flow.py lines 185-199) against an oracle of
responses per attempt: a single POST of the code, raising on a non-200
status or on a Python-falsy `token` field, returning the token
otherwise. -/
def pairPost (env : Nat → PairResponse) : Except String String :=
  let resp := env 1
  if resp.status ≠ 200 then Except.error ("HTTP " ++ toString resp.status)
  else
    match resp.tokenField with
    | none => Except.error "No token received"
    | some t => if t == "" then Except.error "No token received" else Except.ok t

/-- Outcome of `async_step_settings` (lines 42-76): either the form is
shown again (possibly with an error, never creating an entry) or the flow
proceeds to the device step carrying the token. -/
inductive SettingsOutcome
  | form (err : Option String)
  | toDevice (token : String)
deriving DecidableEq

/-- `async_step_settings` with submitted input: reuse a cached token for
the collector URL when one exists; otherwise require a pairing code and
pair, mapping any pairing failure to the `pair_failed` form error. -/
def asyncStepSettings (cachedToken : Option String) (pairingCode : String)
    (env : Nat → PairResponse) : SettingsOutcome :=
  if !(pyTruthy cachedToken) && (pairingCode == "") then
    SettingsOutcome.form (some "missing_pairing_code")
  else if pyTruthy cachedToken then
    SettingsOutcome.toDevice (cachedToken.getD "")
  else
    match pairPost env with
    | .error _ => SettingsOutcome.form (some "pair_failed")
    | .ok t => SettingsOutcome.toDevice t

/-- C7: pairing returns a token iff the (single) response has status 200
and a non-empty `token` field, and then returns exactly that field; only
the first response is ever consulted (single attempt, no retry); and a
pairing failure in the settings step re-shows the form with `pair_failed`,
so no configuration entry is created. -/
theorem C7_pairing (env : Nat → PairResponse) :
    ((∃ t, pairPost env = Except.ok t) ↔
      ((env 1).status = 200 ∧ ∃ t, (env 1).tokenField = some t ∧ t ≠ "")) ∧
    (∀ t, pairPost env = Except.ok t → (env 1).tokenField = some t) ∧
    (∀ env2 : Nat → PairResponse, env2 1 = env 1 →
      pairPost env2 = pairPost env) ∧
    (∀ pairingCode e, pairingCode ≠ "" → pairPost env = Except.error e →
      asyncStepSettings none pairingCode env =
        SettingsOutcome.form (some "pair_failed")) := by
  refine ⟨?_, ?_, ?_, ?_⟩
  · constructor
    · rintro ⟨t, ht⟩
      by_cases hs : (env 1).status ≠ 200
      · simp [pairPost, hs] at ht
      · push_neg at hs
        refine ⟨hs, t, ?_, ?_⟩
        · simp only [pairPost, hs] at ht
          cases htf : (env 1).tokenField with
          | none => simp [htf] at ht
          | some u =>
            simp only [htf] at ht
            by_cases hu : u == ""
            · simp [hu] at ht
            · simp only [hu, Bool.false_eq_true, if_neg, if_false] at ht
              cases ht
              rfl
        · simp only [pairPost, hs] at ht
          cases htf : (env 1).tokenField with
          | none => simp [htf] at ht
          | some u =>
            simp only [htf] at ht
            by_cases hu : u == ""
            · simp [hu] at ht
            · simp only [hu, Bool.false_eq_true, if_neg, if_false] at ht
              cases ht
              simpa using hu
    · rintro ⟨hs, t, htf, hne⟩
      refine ⟨t, ?_⟩
      simp [pairPost, hs, htf, hne]
  · intro t ht
    by_cases hs : (env 1).status ≠ 200
    · simp [pairPost, hs] at ht
    · push_neg at hs
      simp only [pairPost, hs] at ht
      cases htf : (env 1).tokenField with
      | none => simp [htf] at ht
      | some u =>
        simp only [htf] at ht
        by_cases hu : u == ""
        · simp [hu] at ht
        · simp only [hu, Bool.false_eq_true, if_neg, if_false] at ht
          cases ht
          rfl
  · intro env2 h2
    simp [pairPost, h2]
  · intro pairingCode e hcode herr
    simp [asyncStepSettings, pyTruthy, hcode, herr]

/-- C7 witness: a 200 response with token "abc123" pairs; a 404 response
fails pairing and the settings step re-shows the form. -/
theorem C7_pairing_witness :
    ((∃ t, pairPost (fun _ => PairResponse.mk 200 (some "abc123")) =
        Except.ok t) ↔
      ((PairResponse.mk 200 (some "abc123")).status = 200 ∧
        ∃ t, (PairResponse.mk 200 (some "abc123")).tokenField = some t ∧
          t ≠ "")) ∧
    asyncStepSettings none "code1" (fun _ => PairResponse.mk 404 none) =
      SettingsOutcome.form (some "pair_failed") := by
  constructor
  · exact (C7_pairing (fun _ => PairResponse.mk 200 (some "abc123"))).1
  · exact (C7_pairing (fun _ => PairResponse.mk 404 none)).2.2.2 "code1"
      "HTTP 404" (by decide) rfl

/-- The raw monitored-states input of the config flow: missing, a selector
list, or a comma-separated string. -/
inductive StatesInput
  | missing
  | ofList (items : List String)
  | ofStr (s : String)
deriving DecidableEq

/-- Python's `str.strip()` modelled over the character list. -/
def pyStrip (s : String) : String :=
  String.mk
    (((s.data.dropWhile Char.isWhitespace).reverse.dropWhile
      Char.isWhitespace).reverse)

/-- One item of `_normalize_monitored_states`: strip, drop when the
stripped string is falsy. -/
def stripNonEmpty (x : String) : Option String :=
  let t := pyStrip x
  if t == "" then none else some t

/-- `_normalize_monitored_states` (config_flow.py lines 164-172). -/
def normalizeMonitoredStates : StatesInput → List String
  | .missing => []
  | .ofList items => items.filterMap stripNonEmpty
  | .ofStr s => (s.splitOn ",").filterMap stripNonEmpty

/-- Outcome of `async_step_device` with submitted input: form re-shown
with an error (no entry) or an entry created with the normalized
monitored states. -/
inductive DeviceOutcome
  | form (err : Option String)
  | created (monitored : List String)
deriving DecidableEq

/-- `async_step_device` (lines 78-112), restricted to the monitored-states
validation: an input normalizing to the empty list is rejected with a form
error, anything else creates the entry. -/
def asyncStepDevice (input : StatesInput) : DeviceOutcome :=
  let ms := normalizeMonitoredStates input
  if ms = [] then DeviceOutcome.form (some "pair_failed")
  else DeviceOutcome.created ms

/-- Outcome of `async_step_import` (lines 136-162): aborted on a pairing
failure, otherwise an entry created with the stored token and normalized
monitored states. -/
inductive ImportOutcome
  | abortPairFailed
  | created (token : Option String) (monitored : List String)
deriving DecidableEq

/-- `async_step_import`: pair only when no token but a pairing code is
given; always create the entry otherwise, with the normalized
monitored-states list — empty included. -/
def asyncStepImport (token pairingCode : Option String) (states : StatesInput)
    (env : Nat → PairResponse) : ImportOutcome :=
  if !(pyTruthy token) && pyTruthy pairingCode then
    match pairPost env with
    | .error _ => ImportOutcome.abortPairFailed
    | .ok t => ImportOutcome.created (some t) (normalizeMonitoredStates states)
  else ImportOutcome.created token (normalizeMonitoredStates states)

/-- C10: in the device step, an input whose normalization is empty
(missing, empty, or whitespace-only items) is rejected with a form error
and no entry is created, and any created entry has a non-empty monitored
list — while the YAML import step creates its entry with whatever the
normalization yields, the empty list included. -/
theorem C10_empty_monitored_states (input : StatesInput)
    (token : Option String) (env : Nat → PairResponse) :
    (normalizeMonitoredStates input = [] →
      asyncStepDevice input = DeviceOutcome.form (some "pair_failed")) ∧
    (∀ l, asyncStepDevice input = DeviceOutcome.created l →
      l = normalizeMonitoredStates input ∧ l ≠ []) ∧
    (normalizeMonitoredStates (StatesInput.ofList ["", "  "]) = [] ∧
      normalizeMonitoredStates StatesInput.missing = []) ∧
    (pyTruthy token = true →
      asyncStepImport token none input env =
        ImportOutcome.created token (normalizeMonitoredStates input)) := by
  refine ⟨?_, ?_, ⟨by decide, rfl⟩, ?_⟩
  · intro h
    simp [asyncStepDevice, h]
  · intro l hl
    by_cases h : normalizeMonitoredStates input = []
    · simp [asyncStepDevice, h] at hl
    · simp only [asyncStepDevice, if_neg h] at hl
      cases hl
      exact ⟨rfl, h⟩
  · intro ht
    simp [asyncStepImport, ht, pyTruthy]

/-- C10 witness: a whitespace-only device-step input is rejected, and
the YAML import step accepts the same input, creating an entry with the
empty list. -/
theorem C10_empty_monitored_states_witness :
    asyncStepDevice (StatesInput.ofList ["", "  "]) =
      DeviceOutcome.form (some "pair_failed") ∧
    asyncStepImport (some "tok") none (StatesInput.ofList ["", "  "])
        (fun _ => PairResponse.mk 200 none) =
      ImportOutcome.created (some "tok") [] := by
  constructor
  · exact (C10_empty_monitored_states (StatesInput.ofList ["", "  "])
      (some "tok") (fun _ => PairResponse.mk 200 none)).1 (by decide)
  · have h := (C10_empty_monitored_states (StatesInput.ofList ["", "  "])
      (some "tok") (fun _ => PairResponse.mk 200 none)).2.2.2 (by decide)
    rw [show normalizeMonitoredStates (StatesInput.ofList ["", "  "]) = []
      from by decide] at h
    exact h

end LekkageAlarm
